import Mathlib

/-!
Shallow embedding of `src/image_analyzer.py` (AWS-Rekognition batch pipeline).

The script enumerates `images/`, and for each file with an image extension:
validates its size, uploads it to S3, runs Rekognition `detect_labels`, prints
a results table, and stores the labels in DynamoDB.  The three AWS clients are
modelled by an oracle structure (`AWS`): each fallible client call is a
function of its arguments whose result says whether the call raised
`botocore.exceptions.ClientError` (the only exception class the script
catches) and, for `detect_labels`, what response it returned.  Every
observable action (client call, log line, printed table row) is recorded in an
event trace, and an uncaught Python exception (a `KeyError` from a label dict
missing a key — nothing in the script catches those) is surfaced as a
`PyErr` value that aborts the remaining iterations, exactly as an exception
propagating out of the `for` loop would.

Python `float` confidence values are modelled by their decimal rendering: the
script never computes with a confidence, it only passes it to `str()` when
building the DynamoDB attribute (and to a fixed-width print format), so a
label carries directly the string `str(confidence)`.
-/

namespace ImageAnalyzer

/-- Python `s.endswith(suffix)`: case-sensitive suffix match on the text. -/
def pyEndsWith (s suffix : String) : Bool :=
  suffix.data.isSuffixOf s.data

/-- Python `s.split('/')`: split on every slash (never returns an empty list). -/
def pySplitSlash (s : String) : List String :=
  (s.data.splitOn '/').map String.mk

/-- Python `os.path.basename(p)`: the part of `p` after the last slash. -/
def basename (p : String) : String :=
  (pySplitSlash p).getLastD ""

/-- Source line 17: `BRANCH = os.getenv('GITHUB_REF', 'refs/heads/main').split('/')[-1]`.
`github_ref` is `none` when the `GITHUB_REF` environment variable is unset. -/
def BRANCH (github_ref : Option String) : String :=
  (pySplitSlash (github_ref.getD "refs/heads/main")).getLastD ""

/-- A label dict from a Rekognition response.  The script checks `'Name' in
label and 'Confidence' in label` before printing (src 141), so either key may
be absent; `confidence?` holds the decimal rendering `str(label['Confidence'])`
of the float (see the module docstring). -/
structure Label where
  name? : Option String
  confidence? : Option String
  deriving DecidableEq

/-- The part of `response['ResponseMetadata']` the script reads: the `date`
entry of `HTTPHeaders` (src 145). -/
structure RespMeta where
  date : String
  deriving DecidableEq

/-- A `detect_labels` response: `response['Labels']` plus the optional
`'ResponseMetadata'` entry (the script tests its presence at src 145). -/
structure RekResponse where
  labels : List Label
  responseMetadata : Option RespMeta
  deriving DecidableEq

/-- One element of the `labels_confidences` list built at src 79–82:
`{'M': {'Name': {'S': label['Name']}, 'Confidence': {'N': str(label['Confidence'])}}}`. -/
structure LabelAttr where
  nameS : String
  confidenceN : String
  deriving DecidableEq

/-- The `Item` passed to `dynamodb_client.put_item` (src 84–92). -/
structure DynamoItem where
  filename : String
  labels : List LabelAttr
  timestamp : String
  branch : String
  deriving DecidableEq

/-- An uncaught Python exception.  The script only ever catches `ClientError`
(modelled by the boolean oracles below), so the only exception that can
escape is the `KeyError` from `label['Name']` / `label['Confidence']`
at src 80. -/
inductive PyErr where
  | keyError (key : String)
  deriving DecidableEq

/-- Observable actions of one run, in program order. -/
inductive Event where
  | log (msg : String)
  | sizeCheck (path : String)
  | uploadCall (filename key : String)
  | analyzeCall (bucket key : String)
  | storeCall (table : String) (item : DynamoItem)
  | printHeader (image : String)
  | printLabel (nm conf : String)
  deriving DecidableEq

/-- True for console log lines. -/
def Event.isLog : Event → Bool
  | Event.log _ => true
  | _ => false

/-- True for the three external client calls (S3 upload, Rekognition
detect_labels, DynamoDB put_item). -/
def Event.isExternalCall : Event → Bool
  | Event.uploadCall _ _ => true
  | Event.analyzeCall _ _ => true
  | Event.storeCall _ _ => true
  | _ => false

def Event.isUploadCall : Event → Bool
  | Event.uploadCall _ _ => true
  | _ => false

def Event.isAnalyzeCall : Event → Bool
  | Event.analyzeCall _ _ => true
  | _ => false

def Event.isStoreCall : Event → Bool
  | Event.storeCall _ _ => true
  | _ => false

/-- True for any pipeline stage acting on a file: the size validation
(`os.path.getsize`) or one of the three external client calls. -/
def Event.isPipelineStage : Event → Bool
  | Event.sizeCheck _ => true
  | e => e.isExternalCall

/-- Behaviour of the three AWS service clients during one run.
A `false` / `none` result models the call raising `ClientError`. -/
structure AWS where
  uploadOk : String → String → Bool
  detect : String → String → Option RekResponse
  putOk : String → DynamoItem → Bool

/-- The process-wide configuration established at startup (src 11–22) together
with the filesystem and service behaviour the run observes. -/
structure Env where
  bucket : String
  table : String
  branch : String
  listdir : List String
  getsize : String → Nat
  aws : AWS

/-- `upload_image_to_s3` (src 24–42): uploads under key
`f"{PREFIX}{os.path.basename(image_path)}"` with `PREFIX = 'rekognition-input/'`;
returns `True` on success and `False` on `ClientError` (logged; error detail elided). -/
def upload_image_to_s3 (env : Env) (image_path : String) : List Event × Bool :=
  let key := "rekognition-input/" ++ basename image_path
  if env.aws.uploadOk image_path key then
    ([Event.uploadCall image_path key], true)
  else
    ([Event.uploadCall image_path key,
      Event.log s!"Error uploading {image_path} to S3"], false)

/-- `analyze_image_using_rekognition` (src 44–65): calls `detect_labels` on
`{'Bucket': BUCKET, 'Name': f"{PREFIX}{image_name}"}`; on success returns
`(response['Labels'], response)`, on `ClientError` logs and returns `([], None)`. -/
def analyze_image_using_rekognition (env : Env) (image_name : String) :
    List Event × (List Label × Option RekResponse) :=
  let key := "rekognition-input/" ++ image_name
  match env.aws.detect env.bucket key with
  | some response =>
      ([Event.analyzeCall env.bucket key], (response.labels, some response))
  | none =>
      ([Event.analyzeCall env.bucket key,
        Event.log s!"Error analyzing {image_name} with Rekognition"], ([], none))

/-- One element of `labels_confidences` (src 80): evaluates `label['Name']`
first, then `str(label['Confidence'])`; a missing key raises `KeyError`. -/
def labelAttrOf (label : Label) : Except PyErr LabelAttr :=
  match label.name? with
  | none => Except.error (PyErr.keyError "Name")
  | some n =>
    match label.confidence? with
    | none => Except.error (PyErr.keyError "Confidence")
    | some c => Except.ok { nameS := n, confidenceN := c }

/-- The `labels_confidences` list comprehension (src 79–82): stops at the first
label that raises. -/
def labelsConfidences : List Label → Except PyErr (List LabelAttr)
  | [] => Except.ok []
  | label :: rest =>
    match labelAttrOf label with
    | Except.error e => Except.error e
    | Except.ok a =>
      match labelsConfidences rest with
      | Except.error e => Except.error e
      | Except.ok as => Except.ok (a :: as)

/-- `store_results_in_dynamodb` (src 67–96): serializes the labels, then
`put_item` with `{'filename', 'Labels', 'timestamp', 'branch': BRANCH}`.
Returns `ok true` on success, `ok false` on `ClientError` (logged).  A
`KeyError` raised by the comprehension is NOT caught by `except ClientError`
and escapes before `put_item` is called. -/
def store_results_in_dynamodb (env : Env) (image_name : String)
    (labels : List Label) (timestamp : String) : List Event × Except PyErr Bool :=
  match labelsConfidences labels with
  | Except.error e => ([], Except.error e)
  | Except.ok lcs =>
    let item : DynamoItem :=
      { filename := image_name, labels := lcs, timestamp := timestamp,
        branch := env.branch }
    if env.aws.putOk env.table item then
      ([Event.storeCall env.table item], Except.ok true)
    else
      ([Event.storeCall env.table item,
        Event.log s!"Error storing results for {image_name} in DynamoDB"],
       Except.ok false)

/-- `image_size_validator` (src 98–108): `os.path.getsize(image_path) <= max_size`. -/
def image_size_validator (getsize : String → Nat) (image_path : String)
    (max_size : Nat) : Bool :=
  getsize image_path ≤ max_size

/-- The default of the `max_size` parameter in the source signature (src 98). -/
def image_size_validator_default : Nat := 5242880

/-- The extension filter at src 114: `image.endswith(('.jpg', '.jpeg', '.png'))`. -/
def isImageExtension (image : String) : Bool :=
  pyEndsWith image ".jpg" || pyEndsWith image ".jpeg" || pyEndsWith image ".png"

/-- The results-table loop (src 136–142): a row is printed only for labels
with both `'Name'` and `'Confidence'` keys present. -/
def printLabelEvents (labels : List Label) : List Event :=
  labels.filterMap (fun label =>
    match label.name?, label.confidence? with
    | some n, some c => some (Event.printLabel n c)
    | _, _ => none)

/-- The body of the `for image in os.listdir(IMAGES_FOLDER)` loop (src 113–153),
with `IMAGES_FOLDER = 'images/'` so `os.path.join` yields `"images/" ++ image`.
The second component is `some e` when an uncaught exception escapes the body. -/
def processImage (env : Env) (image : String) : List Event × Option PyErr :=
  if isImageExtension image then
    let image_path := "images/" ++ image
    if !(image_size_validator env.getsize image_path image_size_validator_default) then
      ([Event.sizeCheck image_path,
        Event.log s!"Image {image_path} is too large. Skipping..."], none)
    else
      let bucket := env.bucket
      let ev0 := [Event.sizeCheck image_path,
        Event.log s!"Uploading {image_path} to S3 bucket {bucket} with prefix rekognition-input/"]
      let up := upload_image_to_s3 env image_path
      if !up.2 then
        (ev0 ++ up.1 ++
          [Event.log s!"Failed to upload {image_path} to S3. Skipping analysis."], none)
      else
        let an := analyze_image_using_rekognition env (basename image)
        let labels := an.2.1
        let response := an.2.2
        if labels.isEmpty || response.isNone then
          (ev0 ++ up.1 ++ an.1 ++
            [Event.log s!"Failed to analyze {image_path}. Skipping analysis."], none)
        else
          let evPrint := Event.printHeader image :: printLabelEvents labels
          let timestamp :=
            match response with
            | some r =>
              match r.responseMetadata with
              | some m => m.date
              | none => "Unknown"
            | none => "Unknown"
          let st := store_results_in_dynamodb env (basename image) labels timestamp
          match st.2 with
          | Except.error e => (ev0 ++ up.1 ++ an.1 ++ evPrint ++ st.1, some e)
          | Except.ok true =>
            (ev0 ++ up.1 ++ an.1 ++ evPrint ++ st.1 ++
              [Event.log s!"Successfully stored results for {image} in DynamoDB."], none)
          | Except.ok false =>
            (ev0 ++ up.1 ++ an.1 ++ evPrint ++ st.1 ++
              [Event.log s!"Failed to store results for {image} in DynamoDB."], none)
  else
    ([Event.log s!"Skipping non-image file: {image}"], none)

/-- The `__main__` iteration over the directory listing: each file is processed
in order; an uncaught exception aborts the remaining iterations (there is no
try/except around the loop body). -/
def mainLoop (env : Env) : List String → List Event × Option PyErr
  | [] => ([], none)
  | image :: rest =>
    let r := processImage env image
    match r.2 with
    | some e => (r.1, some e)
    | none =>
      let r2 := mainLoop env rest
      (r.1 ++ r2.1, r2.2)

/-- A whole `__main__` run over `os.listdir(IMAGES_FOLDER)`. -/
def runMain (env : Env) : List Event × Option PyErr :=
  mainLoop env env.listdir

/-- The DynamoDB items written during a trace, in order. -/
def storedItems (events : List Event) : List DynamoItem :=
  events.filterMap (fun e =>
    match e with
    | Event.storeCall _ item => some item
    | _ => none)

/-- A well-behaved Rekognition response used for concrete evaluations; its
labels are those of the round-trip example in the specification. -/
def sampleResponse : RekResponse :=
  { labels := [{ name? := some "Cat", confidence? := some "98.2" },
               { name? := some "Animal", confidence? := some "95.0" }],
    responseMetadata := some { date := "Mon, 01 Jan 2024 00:00:00 GMT" } }

/-- Services where every call succeeds and detect_labels yields `sampleResponse`. -/
def sampleAWS : AWS :=
  { uploadOk := fun _ _ => true,
    detect := fun _ _ => some sampleResponse,
    putOk := fun _ _ => true }

/-- A run over a directory holding `cat.png` and `notes.txt` where every
service call succeeds. -/
def sampleEnv : Env :=
  { bucket := "my-bucket", table := "my-table", branch := "main",
    listdir := ["cat.png", "notes.txt"],
    getsize := fun _ => 1024,
    aws := sampleAWS }

/-- Like `sampleEnv` but the detect_labels response lacks `ResponseMetadata`. -/
def sampleEnvNoMeta : Env :=
  { sampleEnv with
    aws := { sampleAWS with
      detect := fun _ _ =>
        some { labels := sampleResponse.labels, responseMetadata := none } } }

/-- A run where every file is 9,000,000 bytes, over the 5,242,880-byte limit. -/
def envTooLarge : Env :=
  { sampleEnv with getsize := fun _ => 9000000 }

/-- A run where every S3 upload raises ClientError. -/
def envUploadFail : Env :=
  { sampleEnv with aws := { sampleAWS with uploadOk := fun _ _ => false } }

/-- A run where every detect_labels call raises ClientError. -/
def envAnalyzeFail : Env :=
  { sampleEnv with aws := { sampleAWS with detect := fun _ _ => none } }

/-- A run where every DynamoDB put_item raises ClientError. -/
def envStoreFail : Env :=
  { sampleEnv with aws := { sampleAWS with putOk := fun _ _ => false } }

/-- A label dict missing its `Name` key (the script tolerates these when
printing but not when storing). -/
def badLabel : Label :=
  { name? := none, confidence? := some "98.2" }

/-- A run over `bad.jpg` then `ok.jpg` where detect_labels returns a response
whose single label lacks the `Name` key. -/
def badEnv : Env :=
  { bucket := "b", table := "t", branch := "main",
    listdir := ["bad.jpg", "ok.jpg"],
    getsize := fun _ => 10,
    aws := { uploadOk := fun _ _ => true,
             detect := fun _ _ =>
               some { labels := [badLabel],
                      responseMetadata := some { date := "d" } },
             putOk := fun _ _ => true } }

end ImageAnalyzer

namespace ImageAnalyzer

theorem upload_first_event (env : Env) (p : String) :
    (upload_image_to_s3 env p).1.head? =
      some (Event.uploadCall p ("rekognition-input/" ++ basename p)) := by
  simp only [upload_image_to_s3]
  split <;> rfl

theorem upload_no_analyze_store (env : Env) (p : String) :
    ((upload_image_to_s3 env p).1.all
      fun e => !(e.isAnalyzeCall || e.isStoreCall)) = true := by
  simp only [upload_image_to_s3]
  split <;> rfl

theorem upload_no_store (env : Env) (p : String) :
    ((upload_image_to_s3 env p).1.all fun e => !e.isStoreCall) = true := by
  simp only [upload_image_to_s3]
  split <;> rfl

theorem analyze_no_store (env : Env) (n : String) :
    ((analyze_image_using_rekognition env n).1.all
      fun e => !e.isStoreCall) = true := by
  cases hd : env.aws.detect env.bucket ("rekognition-input/" ++ n) <;>
    simp only [analyze_image_using_rekognition, hd] <;> rfl

theorem processImage_shape_not_image (env : Env) (image : String)
    (hext : isImageExtension image = false) :
    processImage env image = ([Event.log s!"Skipping non-image file: {image}"], none) := by
  simp [processImage, hext]

theorem processImage_shape_too_large (env : Env) (image image_path : String)
    (hpath : image_path = "images/" ++ image)
    (hext : isImageExtension image = true)
    (hv : image_size_validator env.getsize image_path image_size_validator_default = false) :
    processImage env image =
      ([Event.sizeCheck image_path,
        Event.log s!"Image {image_path} is too large. Skipping..."], none) := by
  subst hpath
  simp [processImage, hext, hv]

theorem processImage_shape_upload_failed (env : Env) (image image_path bucket : String)
    (hpath : image_path = "images/" ++ image) (hbucket : bucket = env.bucket)
    (hext : isImageExtension image = true)
    (hv : image_size_validator env.getsize image_path image_size_validator_default = true)
    (hup : (upload_image_to_s3 env image_path).2 = false) :
    processImage env image =
      ([Event.sizeCheck image_path,
        Event.log s!"Uploading {image_path} to S3 bucket {bucket} with prefix rekognition-input/"]
        ++ (upload_image_to_s3 env image_path).1
        ++ [Event.log s!"Failed to upload {image_path} to S3. Skipping analysis."],
       none) := by
  subst hpath
  subst hbucket
  simp [processImage, hext, hv, hup]

theorem processImage_shape_analysis_failed (env : Env) (image image_path bucket : String)
    (hpath : image_path = "images/" ++ image) (hbucket : bucket = env.bucket)
    (hext : isImageExtension image = true)
    (hv : image_size_validator env.getsize image_path image_size_validator_default = true)
    (hup : (upload_image_to_s3 env image_path).2 = true)
    (hcond : ((analyze_image_using_rekognition env (basename image)).2.1.isEmpty
      || (analyze_image_using_rekognition env (basename image)).2.2.isNone) = true) :
    processImage env image =
      ([Event.sizeCheck image_path,
        Event.log s!"Uploading {image_path} to S3 bucket {bucket} with prefix rekognition-input/"]
        ++ (upload_image_to_s3 env image_path).1
        ++ (analyze_image_using_rekognition env (basename image)).1
        ++ [Event.log s!"Failed to analyze {image_path}. Skipping analysis."],
       none) := by
  subst hpath
  subst hbucket
  simp [processImage, hext, hv, hup, hcond]

end ImageAnalyzer

namespace ImageAnalyzer

theorem processImage_shape_stored (env : Env) (image image_path bucket : String)
    (r : RekResponse)
    (hpath : image_path = "images/" ++ image) (hbucket : bucket = env.bucket)
    (hext : isImageExtension image = true)
    (hv : image_size_validator env.getsize image_path image_size_validator_default = true)
    (hup : (upload_image_to_s3 env image_path).2 = true)
    (hdet : env.aws.detect env.bucket ("rekognition-input/" ++ basename image) = some r)
    (hne : r.labels.isEmpty = false) :
    processImage env image =
      ([Event.sizeCheck image_path,
        Event.log s!"Uploading {image_path} to S3 bucket {bucket} with prefix rekognition-input/"]
        ++ (upload_image_to_s3 env image_path).1
        ++ [Event.analyzeCall bucket ("rekognition-input/" ++ basename image)]
        ++ (Event.printHeader image :: printLabelEvents r.labels)
        ++ (store_results_in_dynamodb env (basename image) r.labels
              (match r.responseMetadata with
                | some m => m.date
                | none => "Unknown")).1
        ++ (match (store_results_in_dynamodb env (basename image) r.labels
              (match r.responseMetadata with
                | some m => m.date
                | none => "Unknown")).2 with
            | Except.error _ => []
            | Except.ok true =>
              [Event.log s!"Successfully stored results for {image} in DynamoDB."]
            | Except.ok false =>
              [Event.log s!"Failed to store results for {image} in DynamoDB."]),
       match (store_results_in_dynamodb env (basename image) r.labels
              (match r.responseMetadata with
                | some m => m.date
                | none => "Unknown")).2 with
       | Except.error e => some e
       | Except.ok _ => none) := by
  subst hpath
  subst hbucket
  simp only [processImage, hext, hv, hup, analyze_image_using_rekognition, hdet, hne]
  cases hst : (store_results_in_dynamodb env (basename image) r.labels
      (match r.responseMetadata with
        | some m => m.date
        | none => "Unknown")).2 with
  | error e => simp [hst]
  | ok b => cases b <;> simp [hst]

theorem store_shape_ok (env : Env) (n ts : String) (labels : List Label)
    (lcs : List LabelAttr) (hok : labelsConfidences labels = Except.ok lcs) :
    store_results_in_dynamodb env n labels ts =
      (Event.storeCall env.table
          { filename := n, labels := lcs, timestamp := ts, branch := env.branch }
        :: (if env.aws.putOk env.table
              { filename := n, labels := lcs, timestamp := ts, branch := env.branch }
            then []
            else [Event.log s!"Error storing results for {n} in DynamoDB"]),
       Except.ok (env.aws.putOk env.table
         { filename := n, labels := lcs, timestamp := ts, branch := env.branch })) := by
  simp only [store_results_in_dynamodb, hok]
  cases hput : env.aws.putOk env.table
      { filename := n, labels := lcs, timestamp := ts, branch := env.branch } <;>
    simp [hput]

theorem store_shape_error (env : Env) (n ts : String) (labels : List Label)
    (e : PyErr) (herr : labelsConfidences labels = Except.error e) :
    store_results_in_dynamodb env n labels ts = ([], Except.error e) := by
  simp [store_results_in_dynamodb, herr]

theorem labelsConfidences_ok (labels : List Label)
    (h : ∀ l ∈ labels, l.name?.isSome ∧ l.confidence?.isSome) :
    labelsConfidences labels =
      Except.ok (labels.map fun l =>
        { nameS := l.name?.getD "", confidenceN := l.confidence?.getD "" }) := by
  induction labels with
  | nil => rfl
  | cons l rest ih =>
    obtain ⟨h1, h2⟩ := h l (List.mem_cons_self l rest)
    obtain ⟨n, hn⟩ := Option.isSome_iff_exists.mp h1
    obtain ⟨c, hc⟩ := Option.isSome_iff_exists.mp h2
    have hrest := ih fun x hx => h x (List.mem_cons_of_mem _ hx)
    simp [labelsConfidences, labelAttrOf, hn, hc, hrest]

theorem labelsConfidences_error (labels : List Label)
    (h : ∃ l ∈ labels, l.name? = none ∨ l.confidence? = none) :
    ∃ k, labelsConfidences labels = Except.error (PyErr.keyError k)
      ∧ (k = "Name" ∨ k = "Confidence") := by
  induction labels with
  | nil => simp at h
  | cons l rest ih =>
    cases hA : labelAttrOf l with
    | error e =>
      have he : ∃ k, e = PyErr.keyError k ∧ (k = "Name" ∨ k = "Confidence") := by
        unfold labelAttrOf at hA
        cases hn : l.name? with
        | none =>
          rw [hn] at hA
          exact ⟨"Name", by simpa using hA.symm, Or.inl rfl⟩
        | some n =>
          rw [hn] at hA
          cases hc : l.confidence? with
          | none =>
            rw [hc] at hA
            exact ⟨"Confidence", by simpa using hA.symm, Or.inr rfl⟩
          | some c =>
            rw [hc] at hA
            simp at hA
      obtain ⟨k, rfl, hk⟩ := he
      exact ⟨k, by simp [labelsConfidences, hA], hk⟩
    | ok a =>
      have hbad : ∃ q ∈ rest, q.name? = none ∨ q.confidence? = none := by
        rcases h with ⟨q, hmem, hq⟩
        rcases List.mem_cons.mp hmem with rfl | hm
        · exfalso
          unfold labelAttrOf at hA
          rcases hq with h0 | h0
          · rw [h0] at hA
            simp at hA
          · cases hn : q.name? with
            | none =>
              rw [hn] at hA
              simp at hA
            | some n =>
              rw [hn, h0] at hA
              simp at hA
        · exact ⟨q, hm, hq⟩
      obtain ⟨k, hk1, hk2⟩ := ih hbad
      exact ⟨k, by simp [labelsConfidences, hA, hk1], hk2⟩

end ImageAnalyzer

namespace ImageAnalyzer

theorem storedItems_append (l1 l2 : List Event) :
    storedItems (l1 ++ l2) = storedItems l1 ++ storedItems l2 := by
  simp [storedItems, List.filterMap_append]

theorem storedItems_upload (env : Env) (p : String) :
    storedItems (upload_image_to_s3 env p).1 = [] := by
  simp only [upload_image_to_s3]
  split <;> rfl

theorem storedItems_printLabelEvents (labels : List Label) :
    storedItems (printLabelEvents labels) = [] := by
  induction labels with
  | nil => rfl
  | cons l rest ih =>
    cases hn : l.name? with
    | none => simpa [printLabelEvents, storedItems, hn] using ih
    | some n =>
      cases hc : l.confidence? with
      | none => simpa [printLabelEvents, storedItems, hn, hc] using ih
      | some c => simpa [printLabelEvents, storedItems, hn, hc] using ih

theorem storedItems_analyze (env : Env) (n : String) :
    storedItems (analyze_image_using_rekognition env n).1 = [] := by
  cases hd : env.aws.detect env.bucket ("rekognition-input/" ++ n) <;>
    simp only [analyze_image_using_rekognition, hd] <;> rfl

theorem storedItems_print_all (labels : List Label) (i : String) :
    storedItems (Event.printHeader i :: printLabelEvents labels) = [] := by
  have h0 : storedItems (Event.printHeader i :: printLabelEvents labels)
      = storedItems (printLabelEvents labels) := rfl
  rw [h0, storedItems_printLabelEvents]

theorem storedItems_store (env : Env) (n ts : String) (labels : List Label) :
    ∀ item ∈ storedItems (store_results_in_dynamodb env n labels ts).1,
      item.branch = env.branch := by
  cases hl : labelsConfidences labels with
  | error e =>
    rw [store_shape_error env n ts labels e hl]
    intro item h
    simp [storedItems] at h
  | ok lcs =>
    rw [store_shape_ok env n ts labels lcs hl]
    intro item h
    cases hput : env.aws.putOk env.table
        { filename := n, labels := lcs, timestamp := ts, branch := env.branch } <;>
      rw [hput] at h <;> simp [storedItems] at h <;> rw [h]

theorem processImage_items_branch (env : Env) (image : String) :
    ∀ item ∈ storedItems (processImage env image).1, item.branch = env.branch := by
  cases hext : isImageExtension image with
  | false =>
    rw [processImage_shape_not_image env image hext]
    intro item h
    simp [storedItems] at h
  | true =>
    cases hv : image_size_validator env.getsize ("images/" ++ image)
        image_size_validator_default with
    | false =>
      rw [processImage_shape_too_large env image _ rfl hext hv]
      intro item h
      simp [storedItems] at h
    | true =>
      cases hup : (upload_image_to_s3 env ("images/" ++ image)).2 with
      | false =>
        rw [processImage_shape_upload_failed env image _ _ rfl rfl hext hv hup]
        intro item h
        rw [storedItems_append, storedItems_append, storedItems_upload] at h
        simp [storedItems] at h
      | true =>
        cases hdet : env.aws.detect env.bucket ("rekognition-input/" ++ basename image) with
        | none =>
          have hcond : ((analyze_image_using_rekognition env (basename image)).2.1.isEmpty
              || (analyze_image_using_rekognition env (basename image)).2.2.isNone) = true := by
            simp [analyze_image_using_rekognition, hdet]
          rw [processImage_shape_analysis_failed env image _ _ rfl rfl hext hv hup hcond]
          intro item h
          rw [storedItems_append, storedItems_append, storedItems_append,
            storedItems_upload, storedItems_analyze] at h
          simp [storedItems] at h
        | some r =>
          cases hemp : r.labels.isEmpty with
          | true =>
            have hcond : ((analyze_image_using_rekognition env (basename image)).2.1.isEmpty
                || (analyze_image_using_rekognition env (basename image)).2.2.isNone) = true := by
              simp [analyze_image_using_rekognition, hdet, hemp]
            rw [processImage_shape_analysis_failed env image _ _ rfl rfl hext hv hup hcond]
            intro item h
            rw [storedItems_append, storedItems_append, storedItems_append,
              storedItems_upload, storedItems_analyze] at h
            simp [storedItems] at h
          | false =>
            rw [processImage_shape_stored env image _ _ r rfl rfl hext hv hup hdet hemp]
            intro item h
            have hmatch : storedItems
                (match (store_results_in_dynamodb env (basename image) r.labels
                  (match r.responseMetadata with
                    | some m => m.date
                    | none => "Unknown")).2 with
                  | Except.error _ => ([] : List Event)
                  | Except.ok true =>
                    [Event.log s!"Successfully stored results for {image} in DynamoDB."]
                  | Except.ok false =>
                    [Event.log s!"Failed to store results for {image} in DynamoDB."]) = [] := by
              cases hst : (store_results_in_dynamodb env (basename image) r.labels
                  (match r.responseMetadata with
                    | some m => m.date
                    | none => "Unknown")).2 with
              | error e => rfl
              | ok b => cases b <;> rfl
            rw [storedItems_append, storedItems_append, storedItems_append,
              storedItems_append, storedItems_append, storedItems_upload,
              storedItems_print_all, hmatch] at h
            simp [storedItems] at h
            exact storedItems_store env (basename image)
              (match r.responseMetadata with
                | some m => m.date
                | none => "Unknown") r.labels item (by simpa [storedItems] using h)

theorem mainLoop_items_branch (env : Env) (files : List String) :
    ∀ item ∈ storedItems (mainLoop env files).1, item.branch = env.branch := by
  induction files with
  | nil =>
    intro item h
    simp [mainLoop, storedItems] at h
  | cons image rest ih =>
    intro item h
    simp only [mainLoop] at h
    cases hp : (processImage env image).2 with
    | some e =>
      rw [hp] at h
      exact processImage_items_branch env image item h
    | none =>
      rw [hp] at h
      have h2 : item ∈ storedItems ((processImage env image).1 ++ (mainLoop env rest).1) := h
      rw [storedItems_append] at h2
      rcases List.mem_append.mp h2 with h1 | h1
      · exact processImage_items_branch env image item h1
      · exact ih item h1

end ImageAnalyzer

namespace ImageAnalyzer

theorem processImage_storeCall_mem (env : Env) (image : String) (r : RekResponse)
    (lcs : List LabelAttr)
    (hext : isImageExtension image = true)
    (hv : image_size_validator env.getsize ("images/" ++ image)
      image_size_validator_default = true)
    (hup : (upload_image_to_s3 env ("images/" ++ image)).2 = true)
    (hdet : env.aws.detect env.bucket ("rekognition-input/" ++ basename image) = some r)
    (hne : r.labels.isEmpty = false)
    (hok : labelsConfidences r.labels = Except.ok lcs) :
    Event.storeCall env.table
        { filename := basename image, labels := lcs,
          timestamp := match r.responseMetadata with
            | some m => m.date
            | none => "Unknown",
          branch := env.branch } ∈ (processImage env image).1
      ∧ (processImage env image).2 = none := by
  rw [processImage_shape_stored env image _ _ r rfl rfl hext hv hup hdet hne,
    store_shape_ok env (basename image) _ r.labels lcs hok]
  constructor
  · simp [List.mem_append]
  · cases hput : env.aws.putOk env.table
        { filename := basename image, labels := lcs,
          timestamp := match r.responseMetadata with
            | some m => m.date
            | none => "Unknown",
          branch := env.branch } <;> rfl

theorem processImage_store_error (env : Env) (image : String) (r : RekResponse)
    (e : PyErr)
    (hext : isImageExtension image = true)
    (hv : image_size_validator env.getsize ("images/" ++ image)
      image_size_validator_default = true)
    (hup : (upload_image_to_s3 env ("images/" ++ image)).2 = true)
    (hdet : env.aws.detect env.bucket ("rekognition-input/" ++ basename image) = some r)
    (hne : r.labels.isEmpty = false)
    (herr : labelsConfidences r.labels = Except.error e) :
    (processImage env image).2 = some e := by
  rw [processImage_shape_stored env image _ _ r rfl rfl hext hv hup hdet hne,
    store_shape_error env (basename image) _ r.labels e herr]

theorem processImage_no_uncaught (env : Env) (image : String)
    (hwf : ∀ r, env.aws.detect env.bucket ("rekognition-input/" ++ basename image) = some r →
      ∀ l ∈ r.labels, l.name?.isSome ∧ l.confidence?.isSome) :
    (processImage env image).2 = none := by
  cases hext : isImageExtension image with
  | false => rw [processImage_shape_not_image env image hext]
  | true =>
    cases hv : image_size_validator env.getsize ("images/" ++ image)
        image_size_validator_default with
    | false => rw [processImage_shape_too_large env image _ rfl hext hv]
    | true =>
      cases hup : (upload_image_to_s3 env ("images/" ++ image)).2 with
      | false => rw [processImage_shape_upload_failed env image _ _ rfl rfl hext hv hup]
      | true =>
        cases hdet : env.aws.detect env.bucket ("rekognition-input/" ++ basename image) with
        | none =>
          have hcond : ((analyze_image_using_rekognition env (basename image)).2.1.isEmpty
              || (analyze_image_using_rekognition env (basename image)).2.2.isNone) = true := by
            simp [analyze_image_using_rekognition, hdet]
          rw [processImage_shape_analysis_failed env image _ _ rfl rfl hext hv hup hcond]
        | some r =>
          cases hemp : r.labels.isEmpty with
          | true =>
            have hcond : ((analyze_image_using_rekognition env (basename image)).2.1.isEmpty
                || (analyze_image_using_rekognition env (basename image)).2.2.isNone) = true := by
              simp [analyze_image_using_rekognition, hdet, hemp]
            rw [processImage_shape_analysis_failed env image _ _ rfl rfl hext hv hup hcond]
          | false =>
            exact (processImage_storeCall_mem env image r _ hext hv hup hdet hemp
              (labelsConfidences_ok r.labels (hwf r hdet))).2

theorem mainLoop_no_uncaught (env : Env)
    (hwf : ∀ b k r, env.aws.detect b k = some r →
      ∀ l ∈ r.labels, l.name?.isSome ∧ l.confidence?.isSome) :
    ∀ files, (mainLoop env files).2 = none := by
  intro files
  induction files with
  | nil => rfl
  | cons image rest ih =>
    have hp : (processImage env image).2 = none :=
      processImage_no_uncaught env image fun r hr => hwf env.bucket _ r hr
    simp only [mainLoop]
    rw [hp]
    exact ih

end ImageAnalyzer

namespace ImageAnalyzer

theorem printLabelEvents_length_lt (labels : List Label)
    (h : ∃ l ∈ labels, l.name? = none ∨ l.confidence? = none) :
    (printLabelEvents labels).length < labels.length := by
  induction labels with
  | nil => simp at h
  | cons l rest ih =>
    rcases h with ⟨q, hmem, hq⟩
    rcases List.mem_cons.mp hmem with rfl | hm
    · have hle := List.length_filterMap_le (fun label =>
        match label.name?, label.confidence? with
        | some n, some c => some (Event.printLabel n c)
        | _, _ => none) rest
      have heq : printLabelEvents (q :: rest) = printLabelEvents rest := by
        rcases hq with h0 | h0
        · simp [printLabelEvents, h0]
        · cases hn : q.name? <;> simp [printLabelEvents, hn, h0]
      rw [heq]
      exact Nat.lt_succ_of_le hle
    · have ihh := ih ⟨q, hm, hq⟩
      cases hn : l.name? with
      | none =>
        have heq : printLabelEvents (l :: rest) = printLabelEvents rest := by
          simp [printLabelEvents, hn]
        rw [heq]
        exact Nat.lt_succ_of_lt ihh
      | some n =>
        cases hc : l.confidence? with
        | none =>
          have heq : printLabelEvents (l :: rest) = printLabelEvents rest := by
            simp [printLabelEvents, hn, hc]
          rw [heq]
          exact Nat.lt_succ_of_lt ihh
        | some c =>
          have heq : printLabelEvents (l :: rest)
              = Event.printLabel n c :: printLabelEvents rest := by
            simp [printLabelEvents, hn, hc]
          rw [heq]
          simpa using Nat.succ_lt_succ ihh

/-- C1: stage gating of the per-file pipeline: an oversize file triggers no
upload, analysis or store call; a failed upload triggers no analysis or store
call; an empty label list or an absent response triggers no store call; and in
each case the loop body raises nothing, so the batch continues with the next
file. -/
theorem C1_stage_gating (env : Env) (image : String) (rest : List String) :
    (isImageExtension image = true →
      5242880 < env.getsize ("images/" ++ image) →
        ((processImage env image).1.all (fun e => !e.isExternalCall) = true
          ∧ (processImage env image).2 = none))
    ∧ (isImageExtension image = true →
        env.getsize ("images/" ++ image) ≤ 5242880 →
        (upload_image_to_s3 env ("images/" ++ image)).2 = false →
          ((processImage env image).1.all
              (fun e => !(e.isAnalyzeCall || e.isStoreCall)) = true
            ∧ (processImage env image).2 = none))
    ∧ (isImageExtension image = true →
        env.getsize ("images/" ++ image) ≤ 5242880 →
        (upload_image_to_s3 env ("images/" ++ image)).2 = true →
        ((analyze_image_using_rekognition env (basename image)).2.1 = []
          ∨ (analyze_image_using_rekognition env (basename image)).2.2 = none) →
          ((processImage env image).1.all (fun e => !e.isStoreCall) = true
            ∧ (processImage env image).2 = none))
    ∧ ((processImage env image).2 = none →
        mainLoop env (image :: rest)
          = ((processImage env image).1 ++ (mainLoop env rest).1,
             (mainLoop env rest).2)) := by
  refine ⟨?_, ?_, ?_, ?_⟩
  · intro hext hbig
    have hv : image_size_validator env.getsize ("images/" ++ image)
        image_size_validator_default = false := by
      simp [image_size_validator, image_size_validator_default]
      omega
    rw [processImage_shape_too_large env image _ rfl hext hv]
    exact ⟨rfl, rfl⟩
  · intro hext hsize hup
    have hv : image_size_validator env.getsize ("images/" ++ image)
        image_size_validator_default = true := by
      simp [image_size_validator, image_size_validator_default]
      omega
    rw [processImage_shape_upload_failed env image _ _ rfl rfl hext hv hup]
    constructor
    · rw [List.all_append, List.all_append,
        upload_no_analyze_store env ("images/" ++ image)]
      rfl
    · rfl
  · intro hext hsize hup han
    have hv : image_size_validator env.getsize ("images/" ++ image)
        image_size_validator_default = true := by
      simp [image_size_validator, image_size_validator_default]
      omega
    have hcond : ((analyze_image_using_rekognition env (basename image)).2.1.isEmpty
        || (analyze_image_using_rekognition env (basename image)).2.2.isNone) = true := by
      rcases han with h | h <;> simp [h]
    rw [processImage_shape_analysis_failed env image _ _ rfl rfl hext hv hup hcond]
    constructor
    · rw [List.all_append, List.all_append, List.all_append,
        upload_no_store env ("images/" ++ image),
        analyze_no_store env (basename image)]
      rfl
    · rfl
  · intro h
    simp only [mainLoop]
    rw [h]

theorem C1_stage_gating_witness :
    (((processImage envTooLarge "cat.png").1.all (fun e => !e.isExternalCall) = true
        ∧ (processImage envTooLarge "cat.png").2 = none)
      ∧ ((processImage envUploadFail "cat.png").1.all
            (fun e => !(e.isAnalyzeCall || e.isStoreCall)) = true
          ∧ (processImage envUploadFail "cat.png").2 = none)
      ∧ ((processImage envAnalyzeFail "cat.png").1.all (fun e => !e.isStoreCall) = true
          ∧ (processImage envAnalyzeFail "cat.png").2 = none)
      ∧ mainLoop envTooLarge ["cat.png", "notes.txt"]
          = ((processImage envTooLarge "cat.png").1
              ++ (mainLoop envTooLarge ["notes.txt"]).1,
             (mainLoop envTooLarge ["notes.txt"]).2)) :=
  ⟨(C1_stage_gating envTooLarge "cat.png" []).1 (by decide) (by decide),
   (C1_stage_gating envUploadFail "cat.png" []).2.1 (by decide) (by decide) (by decide),
   (C1_stage_gating envAnalyzeFail "cat.png" []).2.2.1 (by decide) (by decide)
     (by decide) (by decide),
   (C1_stage_gating envTooLarge "cat.png" ["notes.txt"]).2.2.2 (by decide)⟩

end ImageAnalyzer

namespace ImageAnalyzer

/-- C3: the size validator returns true iff the candidate's byte size is at
most max_bytes, the default bound in the source signature being 5,242,880
bytes; it is a pure function of the reported size. -/
theorem C3_size_validator (getsize : String → Nat) (image_path : String)
    (max_bytes : Nat) :
    (image_size_validator getsize image_path max_bytes = true ↔
      getsize image_path ≤ max_bytes)
    ∧ image_size_validator_default = 5242880 := by
  constructor
  · simp [image_size_validator]
  · rfl

/-- C4: upload and analysis both address the object store at exactly the key
"rekognition-input/" ++ basename: the client call each one issues carries that
key; a file whose basename is cat.png maps to rekognition-input/cat.png; and
any two local paths with the same basename map to the same key. -/
theorem C4_object_key (env : Env) (image_path image_name : String) :
    ((upload_image_to_s3 env image_path).1.head? =
        some (Event.uploadCall image_path
          ("rekognition-input/" ++ basename image_path)))
    ∧ ((analyze_image_using_rekognition env image_name).1.head? =
        some (Event.analyzeCall env.bucket ("rekognition-input/" ++ image_name)))
    ∧ (basename image_path = "cat.png" →
        (upload_image_to_s3 env image_path).1.head? =
          some (Event.uploadCall image_path "rekognition-input/cat.png"))
    ∧ (∀ other_path : String, basename other_path = basename image_path →
        (upload_image_to_s3 env other_path).1.head? =
          some (Event.uploadCall other_path
            ("rekognition-input/" ++ basename image_path))) := by
  refine ⟨upload_first_event env image_path, ?_, ?_, ?_⟩
  · cases hd : env.aws.detect env.bucket ("rekognition-input/" ++ image_name) <;>
      simp [analyze_image_using_rekognition, hd]
  · intro h
    have hk : ("rekognition-input/" ++ "cat.png" : String) = "rekognition-input/cat.png" := by
      decide
    rw [upload_first_event env image_path, h, hk]
  · intro q hq
    rw [upload_first_event env q, hq]

theorem C4_object_key_witness :
    ((upload_image_to_s3 sampleEnv "images/cat.png").1.head? =
        some (Event.uploadCall "images/cat.png" "rekognition-input/cat.png"))
    ∧ ((upload_image_to_s3 sampleEnv "elsewhere/deep/cat.png").1.head? =
        some (Event.uploadCall "elsewhere/deep/cat.png"
          ("rekognition-input/" ++ basename "images/cat.png"))) :=
  ⟨(C4_object_key sampleEnv "images/cat.png" "cat.png").2.2.1 (by decide),
   (C4_object_key sampleEnv "images/cat.png" "cat.png").2.2.2
     "elsewhere/deep/cat.png" (by decide)⟩

/-- C5: a discovered file enters the pipeline (size validation or any later
stage) iff its name ends in .jpg, .jpeg or .png, case-sensitively; any other
file produces exactly one skip log line and no pipeline stage. -/
theorem C5_extension_filter (env : Env) (image : String) :
    ((processImage env image).1.any Event.isPipelineStage = isImageExtension image)
    ∧ (isImageExtension image = false →
        ∃ msg, processImage env image = ([Event.log msg], none)) := by
  cases hext : isImageExtension image
  · constructor
    · rw [processImage_shape_not_image env image hext]
      rfl
    · intro _
      exact ⟨s!"Skipping non-image file: {image}", processImage_shape_not_image env image hext⟩
  · constructor
    · simp only [processImage, hext, if_true]
      split
      · simp [Event.isPipelineStage]
      · split
        · simp [Event.isPipelineStage]
        · split
          · simp [Event.isPipelineStage]
          · split <;> simp [Event.isPipelineStage]
    · intro h
      simp at h

theorem C5_extension_filter_witness :
    ∃ msg, processImage sampleEnv "notes.txt" = ([Event.log msg], none) :=
  (C5_extension_filter sampleEnv "notes.txt").2 (by decide)

/-- C6: the analyzer returns the pair (empty label list, absent response) and
logs the error when detect_labels raises; on success it returns the label list
of the response verbatim together with the full response. -/
theorem C6_analyzer (env : Env) (image_name : String) :
    (env.aws.detect env.bucket ("rekognition-input/" ++ image_name) = none →
      (analyze_image_using_rekognition env image_name).2 = ([], none)
        ∧ ∃ msg, Event.log msg ∈ (analyze_image_using_rekognition env image_name).1)
    ∧ (∀ r, env.aws.detect env.bucket ("rekognition-input/" ++ image_name) = some r →
        (analyze_image_using_rekognition env image_name).2 = (r.labels, some r)) := by
  constructor
  · intro hd
    refine ⟨by simp [analyze_image_using_rekognition, hd], ?_⟩
    exact ⟨s!"Error analyzing {image_name} with Rekognition",
      by simp [analyze_image_using_rekognition, hd]⟩
  · intro r hd
    simp [analyze_image_using_rekognition, hd]

theorem C6_analyzer_witness :
    ((analyze_image_using_rekognition envAnalyzeFail "cat.png").2 = ([], none))
    ∧ ((analyze_image_using_rekognition sampleEnv "cat.png").2 =
        (sampleResponse.labels, some sampleResponse)) :=
  ⟨((C6_analyzer envAnalyzeFail "cat.png").1 (by decide)).1,
   (C6_analyzer sampleEnv "cat.png").2 sampleResponse (by decide)⟩

/-- C7: the stored record's Labels list is the input label list mapped
one-to-one in order: same length, same order, each entry carrying the original
Name and the decimal string rendering of its Confidence. -/
theorem C7_store_roundtrip (env : Env) (image_name timestamp : String)
    (labels : List Label)
    (h : ∀ l ∈ labels, l.name?.isSome ∧ l.confidence?.isSome) :
    ∃ lcs, labelsConfidences labels = Except.ok lcs
      ∧ lcs = labels.map (fun l =>
          { nameS := l.name?.getD "", confidenceN := l.confidence?.getD "" })
      ∧ lcs.length = labels.length
      ∧ (store_results_in_dynamodb env image_name labels timestamp).1.head? =
          some (Event.storeCall env.table
            { filename := image_name, labels := lcs, timestamp := timestamp,
              branch := env.branch }) := by
  have hok := labelsConfidences_ok labels h
  refine ⟨labels.map (fun l =>
    { nameS := l.name?.getD "", confidenceN := l.confidence?.getD "" }),
    hok, rfl, by simp, ?_⟩
  rw [store_shape_ok env image_name timestamp labels _ hok]
  rfl

theorem C7_store_roundtrip_witness :
    (store_results_in_dynamodb sampleEnv "cat.png" sampleResponse.labels "ts").1.head? =
      some (Event.storeCall "my-table"
        { filename := "cat.png",
          labels := [{ nameS := "Cat", confidenceN := "98.2" },
                     { nameS := "Animal", confidenceN := "95.0" }],
          timestamp := "ts", branch := "main" }) := by
  obtain ⟨lcs, h1, h2, h3, h4⟩ :=
    C7_store_roundtrip sampleEnv "cat.png" "ts" sampleResponse.labels (by decide)
  rw [h4, h2]
  decide

end ImageAnalyzer

namespace ImageAnalyzer

/-- C8: every record written during a run carries the run's startup branch
constant; that constant is the last slash-separated segment of the
source-control ref, and "main" when the ref is unset. -/
theorem C8_branch_constant (env : Env) (github_ref : Option String) :
    (env.branch = BRANCH github_ref →
      ∀ item ∈ storedItems (runMain env).1, item.branch = BRANCH github_ref)
    ∧ BRANCH none = "main"
    ∧ (∀ ref_string : String,
        BRANCH (some ref_string) = (pySplitSlash ref_string).getLastD "") := by
  refine ⟨?_, by decide, fun s => rfl⟩
  intro hb item hitem
  rw [← hb]
  exact mainLoop_items_branch env env.listdir item hitem

theorem C8_branch_constant_witness :
    ({ filename := "cat.png",
       labels := [{ nameS := "Cat", confidenceN := "98.2" },
                  { nameS := "Animal", confidenceN := "95.0" }],
       timestamp := "Mon, 01 Jan 2024 00:00:00 GMT",
       branch := "main" } : DynamoItem).branch = BRANCH (some "refs/heads/main") :=
  (C8_branch_constant sampleEnv (some "refs/heads/main")).1 (by decide) _ (by decide)

/-- C9: when a processed image reaches the store step, the timestamp persisted
with its record is the date HTTP header of the response metadata, or the
literal "Unknown" when the response lacks a ResponseMetadata entry. -/
theorem C9_timestamp (env : Env) (image : String) (r : RekResponse)
    (hext : isImageExtension image = true)
    (hsize : env.getsize ("images/" ++ image) ≤ 5242880)
    (hup : (upload_image_to_s3 env ("images/" ++ image)).2 = true)
    (hdet : env.aws.detect env.bucket ("rekognition-input/" ++ basename image) = some r)
    (hne : r.labels ≠ [])
    (hwf : ∀ l ∈ r.labels, l.name?.isSome ∧ l.confidence?.isSome) :
    ∃ item, Event.storeCall env.table item ∈ (processImage env image).1
      ∧ item.timestamp = (match r.responseMetadata with
          | some m => m.date
          | none => "Unknown") := by
  have hv : image_size_validator env.getsize ("images/" ++ image)
      image_size_validator_default = true := by
    simp [image_size_validator, image_size_validator_default]
    omega
  have hne2 : r.labels.isEmpty = false := by
    cases hl : r.labels with
    | nil => exact absurd hl hne
    | cons a as => rfl
  obtain ⟨hmem, -⟩ := processImage_storeCall_mem env image r _ hext hv hup hdet hne2
    (labelsConfidences_ok r.labels hwf)
  exact ⟨_, hmem, rfl⟩

theorem C9_timestamp_witness :
    ∃ item, Event.storeCall sampleEnvNoMeta.table item
        ∈ (processImage sampleEnvNoMeta "cat.png").1
      ∧ item.timestamp = "Unknown" := by
  obtain ⟨item, h1, h2⟩ := C9_timestamp sampleEnvNoMeta "cat.png"
    { labels := sampleResponse.labels, responseMetadata := none }
    (by decide) (by decide) (by decide) (by decide) (by decide) (by decide)
  exact ⟨item, h1, h2⟩

/-- C10: a label missing its Name or Confidence key is silently omitted from
the console results table, but the store serialization reads both keys
unconditionally, so the store step ends in an uncaught KeyError (the handler
catches only ClientError) which escapes the loop body. -/
theorem C10_malformed_label (env : Env) (image_name timestamp : String)
    (labels : List Label)
    (h : ∃ l ∈ labels, l.name? = none ∨ l.confidence? = none) :
    (printLabelEvents labels).length < labels.length
    ∧ ∃ k, (k = "Name" ∨ k = "Confidence")
        ∧ (store_results_in_dynamodb env image_name labels timestamp).2 =
            Except.error (PyErr.keyError k)
        ∧ (∀ image r,
            isImageExtension image = true →
            env.getsize ("images/" ++ image) ≤ 5242880 →
            (upload_image_to_s3 env ("images/" ++ image)).2 = true →
            env.aws.detect env.bucket ("rekognition-input/" ++ basename image) = some r →
            r.labels = labels →
            labels ≠ [] →
            (processImage env image).2 = some (PyErr.keyError k)) := by
  obtain ⟨k, hk1, hk2⟩ := labelsConfidences_error labels h
  refine ⟨printLabelEvents_length_lt labels h, k, hk2, ?_, ?_⟩
  · rw [store_shape_error env image_name timestamp labels _ hk1]
  · intro image r hext hsize hup hdet hlab hne
    have hv : image_size_validator env.getsize ("images/" ++ image)
        image_size_validator_default = true := by
      simp [image_size_validator, image_size_validator_default]
      omega
    have hne2 : r.labels.isEmpty = false := by
      rw [hlab]
      cases hl : labels with
      | nil => exact absurd hl hne
      | cons a as => rfl
    exact processImage_store_error env image r _ hext hv hup hdet hne2
      (by rw [hlab, hk1])

theorem C10_malformed_label_witness :
    (printLabelEvents [badLabel]).length < ([badLabel] : List Label).length
    ∧ ∃ k, (store_results_in_dynamodb badEnv "bad.jpg" [badLabel] "d").2 =
          Except.error (PyErr.keyError k)
        ∧ (processImage badEnv "bad.jpg").2 = some (PyErr.keyError k) := by
  obtain ⟨h1, k, hk, h2, h3⟩ :=
    C10_malformed_label badEnv "bad.jpg" "d" [badLabel] (by decide)
  exact ⟨h1, k, h2,
    h3 "bad.jpg" { labels := [badLabel], responseMetadata := some { date := "d" } }
      (by decide) (by decide) (by decide) (by decide) (by decide) (by decide)⟩

/-- C2 as stated is false: an exception can terminate the batch.  In `badEnv`
the analysis response for bad.jpg holds a label without a Name key; the store
step raises KeyError("Name"), which nothing catches, and ok.jpg — the next
file of the listing — is never processed (its size check never happens). -/
theorem C2_counterexample :
    (runMain badEnv).2 = some (PyErr.keyError "Name")
    ∧ Event.sizeCheck "images/ok.jpg" ∉ (runMain badEnv).1 := by
  decide

/-- C2 (amended): every ClientError from an external call is collapsed to a
boolean or empty-sequence signal — upload returns exactly the service
acceptance flag, analysis returns ([], none) on error, and the store step
returns a plain boolean whenever label serialization succeeds — and a run
whose analysis responses contain only well-formed labels finishes every file
with no uncaught exception. -/
theorem C2_error_collapse (env : Env) (image_path image_name timestamp : String)
    (labels : List Label) :
    ((upload_image_to_s3 env image_path).2 =
        env.aws.uploadOk image_path ("rekognition-input/" ++ basename image_path))
    ∧ (env.aws.detect env.bucket ("rekognition-input/" ++ image_name) = none →
        (analyze_image_using_rekognition env image_name).2 = ([], none))
    ∧ (∀ lcs, labelsConfidences labels = Except.ok lcs →
        ∃ b : Bool, (store_results_in_dynamodb env image_name labels timestamp).2 =
          Except.ok b)
    ∧ ((∀ b k r, env.aws.detect b k = some r →
          ∀ l ∈ r.labels, l.name?.isSome ∧ l.confidence?.isSome) →
        ∀ files, (mainLoop env files).2 = none) := by
  refine ⟨?_, ?_, ?_, ?_⟩
  · simp only [upload_image_to_s3]
    cases h : env.aws.uploadOk image_path ("rekognition-input/" ++ basename image_path) <;>
      simp [h]
  · intro hd
    simp [analyze_image_using_rekognition, hd]
  · intro lcs hok
    rw [store_shape_ok env image_name timestamp labels lcs hok]
    exact ⟨_, rfl⟩
  · intro hwf files
    exact mainLoop_no_uncaught env hwf files

theorem C2_error_collapse_witness :
    ((upload_image_to_s3 envUploadFail "images/cat.png").2 =
        envUploadFail.aws.uploadOk "images/cat.png"
          ("rekognition-input/" ++ basename "images/cat.png"))
    ∧ ((analyze_image_using_rekognition envAnalyzeFail "cat.png").2 = ([], none))
    ∧ (∃ b : Bool, (store_results_in_dynamodb envStoreFail "cat.png"
        sampleResponse.labels "ts").2 = Except.ok b)
    ∧ (mainLoop sampleEnv ["cat.png", "notes.txt"]).2 = none := by
  refine ⟨(C2_error_collapse envUploadFail "images/cat.png" "x" "ts" []).1,
    (C2_error_collapse envAnalyzeFail "images/cat.png" "cat.png" "ts" []).2.1 (by decide),
    (C2_error_collapse envStoreFail "images/cat.png" "cat.png" "ts"
      sampleResponse.labels).2.2.1
      [{ nameS := "Cat", confidenceN := "98.2" },
       { nameS := "Animal", confidenceN := "95.0" }] (by rfl),
    (C2_error_collapse sampleEnv "images/cat.png" "cat.png" "ts" []).2.2.2
      ?_ ["cat.png", "notes.txt"]⟩
  intro b k r hr
  have h2 : some sampleResponse = some r := hr
  have h3 := Option.some.inj h2
  subst h3
  decide

end ImageAnalyzer
